import Mathlib

/-!
# Verification of the analytics dashboard read path

A shallow embedding of the dashboard's page controllers and helpers
(`DashboardPage`, `TenantUsersPage`, `UserOverviewPage`, `TenantsPage`,
`truncate`, and the query-parameter handling they perform), together with a
model of the fragment of JavaScript runtime semantics these pages rely on:
truthiness, `||` / `??`, `Number(...)` conversion of strings, and
`encodeURIComponent` / `decodeURIComponent` percent-encoding.

Query-string parameters are modelled as `Option String` (absent or a raw
string); JSON-ish values reaching the shaping layer are modelled by `JsVal`.
-/

namespace Analytics

/-- A JavaScript number as far as this code can observe it: either `NaN` or a
(rational) numeric value. The dashboard only compares, defaults and forwards
these, so rationals are an adequate carrier for the values produced by
`Number(...)` on the inputs in scope (no Infinity arises from the modelled
fragment). -/
inductive JsNum where
  | nan : JsNum
  | num : ℚ → JsNum
deriving DecidableEq, Repr

/-- A JavaScript value of the shapes that reach the pages' defaulting
expressions: `undefined`, `null`, a boolean, a number, or a string. -/
inductive JsVal where
  | undef : JsVal
  | null : JsVal
  | bool : Bool → JsVal
  | numv : JsNum → JsVal
  | str : String → JsVal
deriving DecidableEq, Repr

/-- JavaScript truthiness: `undefined`, `null`, `false`, `0`, `NaN` and the
empty string are falsy; everything else in scope is truthy. -/
def jsTruthy : JsVal → Bool
  | .undef => false
  | .null => false
  | .bool b => b
  | .numv .nan => false
  | .numv (.num q) => q ≠ 0
  | .str s => s ≠ ""

/-- JavaScript `a || b`: `a` when truthy, otherwise `b`. -/
def jsOr (a b : JsVal) : JsVal :=
  if jsTruthy a then a else b

/-- JavaScript `a ?? b`: `b` only when `a` is `null` or `undefined`. -/
def jsNullish (a b : JsVal) : JsVal :=
  match a with
  | .undef => b
  | .null => b
  | _ => a

/-- Digit-string value: `some` of the decimal value when the list is a
non-empty run of ASCII digits, else `none`. -/
def parseDigits (cs : List Char) : Option ℕ :=
  if cs ≠ [] ∧ cs.all Char.isDigit then
    some (cs.foldl (fun a c => 10 * a + (c.toNat - 48)) 0)
  else none

/-- Unsigned decimal literal, with an optional fraction part
(`"5"`, `"5."`, `".5"`, `"5.25"`). Two dots or a lone dot fail. -/
def parseUnsigned (cs : List Char) : Option ℚ :=
  match cs.splitOn '.' with
  | [ip] => (parseDigits ip).map (fun n => (n : ℚ))
  | [ip, fp] =>
    if ip = [] ∧ fp = [] then none
    else
      match (if ip = [] then some 0 else parseDigits ip),
            (if fp = [] then some 0 else parseDigits fp) with
      | some i, some f => some ((i : ℚ) + (f : ℚ) / (10 : ℚ) ^ fp.length)
      | _, _ => none
  | _ => none

/-- Signed decimal literal: optional leading `+`/`-`. -/
def parseSigned (cs : List Char) : Option ℚ :=
  match cs with
  | '+' :: rest => parseUnsigned rest
  | '-' :: rest => (parseUnsigned rest).map Neg.neg
  | _ => parseUnsigned cs

/-- JavaScript `Number(s)` for a string `s`, on the fragment the dashboard's
inputs exercise: surrounding whitespace is trimmed, the empty (or
all-whitespace) string converts to `0`, a signed decimal literal converts to
its value, and anything else converts to `NaN`. (Hexadecimal, exponent and
`Infinity` forms are outside the modelled fragment; no page input in scope
produces them.) -/
def jsStringToNumber (s : String) : JsNum :=
  let cs := ((s.toList.dropWhile Char.isWhitespace).reverse.dropWhile
    Char.isWhitespace).reverse
  if cs = [] then JsNum.num 0
  else
    match parseSigned cs with
    | some q => JsNum.num q
    | none => JsNum.nan

/-- JavaScript `Number(v)` on the value shapes in scope. -/
def jsToNumber : JsVal → JsNum
  | .undef => .nan
  | .null => .num 0
  | .bool b => .num (if b then 1 else 0)
  | .numv n => n
  | .str s => jsStringToNumber s

/-- An optional query-string parameter as the page sees it: `undefined` when
absent, otherwise the raw string. -/
def qp : Option String → JsVal
  | none => .undef
  | some s => .str s

/-- `TenantUsersPage`: `const limit = Number(sp?.limit || 50)`. -/
def resolvedLimit (limit : Option String) : JsNum :=
  jsToNumber (jsOr (qp limit) (.numv (.num 50)))

/-- `TenantUsersPage`: `const offset = Number(sp?.offset || 0)`. -/
def resolvedOffset (offset : Option String) : JsNum :=
  jsToNumber (jsOr (qp offset) (.numv (.num 0)))

/-- `TenantUsersPage`: `const q = sp?.q || ""`. -/
def resolvedQuery (q : Option String) : String :=
  match jsOr (qp q) (.str "") with
  | .str s => s
  | _ => ""

/-- `DashboardPage`: `const days = Number(sp?.days ?? 7)`. -/
def resolvedDays (days : Option String) : JsNum :=
  jsToNumber (jsNullish (qp days) (.numv (.num 7)))

/-- `DashboardPage`: `const tenantName = sp?.tenantName ?? ""` followed by the
call argument `tenantName: tenantName || undefined`. -/
def resolvedTenantName (t : Option String) : Option String :=
  let tn : String := match t with | none => "" | some s => s
  if tn ≠ "" then some tn else none

/-! ## Percent-encoding (`encodeURIComponent` / `decodeURIComponent`)

`TenantsPage` builds each row's link as
`/tenants/${encodeURIComponent(t.tenantName)}/users`; `TenantUsersPage`
recovers the name with `decodeURIComponent(p.tenantName)`, and
`TenantUsersPage` likewise encodes the user email into `/users/...` links.
JavaScript strings are UTF-16, and `encodeURIComponent` percent-encodes the
UTF-8 bytes of the string, leaving the unreserved characters as themselves;
we model a string by its UTF-8 byte sequence (each byte a `ℕ < 256`), which
the encoder turns into characters and the decoder recovers. -/

/-- Upper-case hexadecimal digit for `n < 16` (as `encodeURIComponent`
emits). -/
def hexDigitChar (n : ℕ) : Char :=
  if n < 10 then Char.ofNat (48 + n) else Char.ofNat (55 + n)

/-- Value of a hexadecimal digit character (`decodeURIComponent` accepts both
cases). -/
def hexDigitVal (c : Char) : Option ℕ :=
  if '0' ≤ c ∧ c ≤ '9' then some (c.toNat - 48)
  else if 'A' ≤ c ∧ c ≤ 'F' then some (c.toNat - 55)
  else if 'a' ≤ c ∧ c ≤ 'f' then some (c.toNat - 87)
  else none

/-- The bytes `encodeURIComponent` leaves unencoded: ASCII letters, digits,
and `- _ . ! ~ * ' ( )`. -/
def isUnreservedByte (b : ℕ) : Bool :=
  (65 ≤ b ∧ b ≤ 90) ∨ (97 ≤ b ∧ b ≤ 122) ∨ (48 ≤ b ∧ b ≤ 57) ∨
    b = 45 ∨ b = 95 ∨ b = 46 ∨ b = 33 ∨ b = 126 ∨ b = 42 ∨ b = 39 ∨
    b = 40 ∨ b = 41

/-- `encodeURIComponent` on a UTF-8 byte sequence: unreserved bytes pass
through as their ASCII character, every other byte becomes `%XX`. -/
def encodeURIComponentBytes : List ℕ → List Char
  | [] => []
  | b :: rest =>
    (if isUnreservedByte b then [Char.ofNat b]
     else ['%', hexDigitChar (b / 16), hexDigitChar (b % 16)]) ++
      encodeURIComponentBytes rest

/-- `decodeURIComponent` on the characters of a string: `%XX` pairs become
the byte `XX`, other characters contribute their code point as a byte;
malformed escapes fail (the JS function throws `URIError`). -/
def decodeURIComponentChars : List Char → Option (List ℕ)
  | [] => some []
  | c :: rest =>
    if c = '%' then
      match rest with
      | h :: l :: rest2 =>
        match hexDigitVal h, hexDigitVal l, decodeURIComponentChars rest2 with
        | some hv, some lv, some bs => some ((16 * hv + lv) :: bs)
        | _, _, _ => none
      | _ => none
    else (decodeURIComponentChars rest).map (fun bs => c.toNat :: bs)

/-- UTF-8 encoding of a Unicode scalar value. -/
def utf8EncodeCharNat (n : ℕ) : List ℕ :=
  if n < 128 then [n]
  else if n < 2048 then [192 + n / 64, 128 + n % 64]
  else if n < 65536 then [224 + n / 4096, 128 + (n / 64) % 64, 128 + n % 64]
  else [240 + n / 262144, 128 + (n / 4096) % 64, 128 + (n / 64) % 64,
    128 + n % 64]

/-- The UTF-8 byte sequence of a string. -/
def utf8Bytes (s : String) : List ℕ :=
  s.data.flatMap (fun c => utf8EncodeCharNat c.toNat)

/-- `TenantsPage`: the per-row link
`/tenants/${encodeURIComponent(t.tenantName)}/users`. -/
def tenantHref (tenantName : String) : String :=
  "/tenants/" ++ String.mk (encodeURIComponentBytes (utf8Bytes tenantName)) ++
    "/users"

/-- `TenantUsersPage`: `decodeURIComponent(p.tenantName)` applied to the
path segment, giving back the UTF-8 bytes of the tenant name. -/
def tenantUsersPageParamBytes (seg : String) : Option (List ℕ) :=
  decodeURIComponentChars seg.toList

/-! ## Rendered-table model

Each page's `<tbody>` is either the single placeholder row the JSX emits
when the list is empty (with its `colSpan` and text) or one rendered row per
item. -/

/-- A table body as the pages render it. -/
inductive TableBody (α : Type) where
  | placeholder (colSpan : ℕ) (text : String) : TableBody α
  | rows (l : List α) : TableBody α
deriving DecidableEq, Repr

/-- The `(list || []).length === 0 ? placeholder : list.map(render)` pattern
shared by every table in the pages. -/
def renderTableBody {α β : Type} (colSpan : ℕ) (emptyText : String)
    (render : α → β) (l : Option (List α)) : TableBody β :=
  if (l.getD []).length = 0 then .placeholder colSpan emptyText
  else .rows ((l.getD []).map render)

/-! ## `TenantUsersPage` (tenant users table) -/

/-- One item of `UsersResponse.items`; optional fields are absent-or-string
exactly as the page guards them. -/
structure UserItem where
  email : Option String
  name : Option String
  first_name : Option String
  last_name : Option String
  tenantName : Option String
deriving DecidableEq, Repr

/-- `UsersResponse` as the page consumes it (`items` may be missing, the
page guards with `data.items || []`). -/
structure UsersResponse where
  items : Option (List UserItem)
  count : ℤ
  total : ℤ
deriving DecidableEq, Repr

/-- JavaScript `String.prototype.trim`: strip leading and trailing
whitespace. -/
def jsTrim (s : String) : String :=
  String.mk
    (((s.toList.dropWhile Char.isWhitespace).reverse.dropWhile
      Char.isWhitespace).reverse)

/-- The Name cell: `u.name` or-else the trimmed template literal joining
`u.first_name || ""` and `u.last_name || ""` with a space — `name` when
truthy (non-empty), otherwise first and last name joined by a space,
missing parts becoming the empty string, the result trimmed. -/
def nameCell (name first last : Option String) : String :=
  let fallback := jsTrim ((first.getD "") ++ " " ++ (last.getD ""))
  match name with
  | some n => if n ≠ "" then n else fallback
  | none => fallback

/-- The Actions cell: an Overview link when the email is non-empty, `N/A`
otherwise. -/
inductive RowAction where
  | overviewLink (href : String) : RowAction
  | na : RowAction
deriving DecidableEq, Repr

/-- One rendered row of the users table. -/
structure UserRowView where
  email : String
  nameText : String
  tenant : String
  action : RowAction
deriving DecidableEq, Repr

/-- Rendering one user row: `const email = u.email || ""`, the name cell,
`u.tenantName || ""`, and the Overview link at `/users/` followed by
`encodeURIComponent(email)` only when the email is non-empty. -/
def userRowView (u : UserItem) : UserRowView :=
  let email := u.email.getD ""
  { email := email
    nameText := nameCell u.name u.first_name u.last_name
    tenant := u.tenantName.getD ""
    action :=
      if email ≠ "" then
        .overviewLink ("/users/" ++
          String.mk (encodeURIComponentBytes (utf8Bytes email)))
      else .na }

/-- The users table body: the single `No users found.` row spanning the four
columns when `(data.items || [])` is empty, else one row per item. -/
def tenantUsersBody (items : Option (List UserItem)) : TableBody UserRowView :=
  renderTableBody 4 "No users found." userRowView items

/-- The query-derived arguments `TenantUsersPage` passes to
`fetchUsersByTenant(tenantName, q, limit, offset)` (the tenant name itself
comes from the decoded path parameter). -/
structure FetchUsersArgs where
  q : String
  limit : JsNum
  offset : JsNum
deriving DecidableEq, Repr

/-- Building those arguments from the raw query string. -/
def tenantUsersFetchArgs (q limit offset : Option String) : FetchUsersArgs :=
  { q := resolvedQuery q
    limit := resolvedLimit limit
    offset := resolvedOffset offset }

/-- The whole tenant-users page view: heading, table body, and the
`Showing (count) of (total)` footer, which always shows `data.count`. -/
structure UsersPageView where
  heading : String
  body : TableBody UserRowView
  footerCount : ℤ
  footerTotal : ℤ
deriving DecidableEq, Repr

/-- `TenantUsersPage` rendering from the fetched `UsersResponse` and the
decoded tenant name. -/
def tenantUsersPage (tenantName : String) (data : UsersResponse) :
    UsersPageView :=
  { heading := "Users – " ++ tenantName
    body := tenantUsersBody data.items
    footerCount := data.count
    footerTotal := data.total }

/-! ## `UserOverviewPage` (user overview) -/

/-- `truncate` from `users/[email]/page.tsx`:
`if (s.length <= max) return s; return s.slice(0, max) + "…"` with
`max = 200`. -/
def truncate (s : String) (max : ℕ := 200) : String :=
  if s.length ≤ max then s else s.take max ++ "…"

/-- A run as the overview page reads it; date fields stay raw here
(`formatDate` from `lib/api` is display-only formatting). -/
structure Run where
  id : String
  status : Option String
  started_at : Option String
  finished_at : Option String
deriving DecidableEq, Repr

/-- An event row source; `payloadJson` is the `JSON.stringify(e.payload)`
serialization the page truncates. -/
structure EventRow where
  id : String
  occurred_at : Option String
  event_type : String
  payloadJson : String
deriving DecidableEq, Repr

/-- A decision row source; `rationaleJson` is `JSON.stringify(d.rationale)`. -/
structure DecisionRow where
  decided_at : Option String
  rule : String
  decision : String
  rationaleJson : String
deriving DecidableEq, Repr

/-- An email-attempt row source. -/
structure AttemptRow where
  template_key : String
  stage : String
  status : String
  reason : Option String
  created_at : Option String
deriving DecidableEq, Repr

/-- A feature row source; `valueJson` is `JSON.stringify(f.value)`. -/
structure FeatureRow where
  name : String
  valueJson : String
  computed_at : Option String
deriving DecidableEq, Repr

/-- `UserOverviewResponse` as the page destructures it: every part may be
absent. -/
structure UserOverviewResponse where
  userEmail : Option String
  runs : Option (List Run)
  latest_run : Option Run
  latest_run_events : Option (List EventRow)
  latest_run_decisions : Option (List DecisionRow)
  latest_run_email_attempts : Option (List AttemptRow)
  latest_run_features : Option (List FeatureRow)
deriving DecidableEq, Repr

/-- A rendered Recent Runs row (`r.status || ""`). -/
structure RunRowView where
  id : String
  status : String
  started_at : Option String
  finished_at : Option String
deriving DecidableEq, Repr

/-- Rendering one Recent Runs row. -/
def runRowView (r : Run) : RunRowView :=
  { id := r.id, status := r.status.getD ""
    started_at := r.started_at, finished_at := r.finished_at }

/-- A rendered event row: time, type, and the truncated payload JSON. -/
structure EventRowView where
  occurred_at : Option String
  event_type : String
  payload : String
deriving DecidableEq, Repr

/-- `truncate(JSON.stringify(e.payload))` in the Events table. -/
def eventRowView (e : EventRow) : EventRowView :=
  { occurred_at := e.occurred_at, event_type := e.event_type
    payload := truncate e.payloadJson }

/-- A rendered decision row. -/
structure DecisionRowView where
  decided_at : Option String
  rule : String
  decision : String
  rationale : String
deriving DecidableEq, Repr

/-- `truncate(JSON.stringify(d.rationale))` in the Decisions table. -/
def decisionRowView (d : DecisionRow) : DecisionRowView :=
  { decided_at := d.decided_at, rule := d.rule, decision := d.decision
    rationale := truncate d.rationaleJson }

/-- A rendered email-attempt row (`a.reason || ""`). -/
structure AttemptRowView where
  template_key : String
  stage : String
  status : String
  reason : String
  created_at : Option String
deriving DecidableEq, Repr

/-- Rendering one email-attempt row. -/
def attemptRowView (a : AttemptRow) : AttemptRowView :=
  { template_key := a.template_key, stage := a.stage, status := a.status
    reason := a.reason.getD "", created_at := a.created_at }

/-- A rendered feature row. -/
structure FeatureRowView where
  name : String
  value : String
  computed_at : Option String
deriving DecidableEq, Repr

/-- `truncate(JSON.stringify(f.value))` in the Features table. -/
def featureRowView (f : FeatureRow) : FeatureRowView :=
  { name := f.name, value := truncate f.valueJson
    computed_at := f.computed_at }

/-- The Latest Run Details section: run header plus the four sub-tables,
emitted only when `latest_run` is truthy. -/
structure LatestRunSection where
  runId : String
  runStatus : Option String
  events : TableBody EventRowView
  decisions : TableBody DecisionRowView
  attempts : TableBody AttemptRowView
  features : TableBody FeatureRowView
deriving DecidableEq, Repr

/-- The whole user-overview page view. -/
structure UserOverviewView where
  headerEmail : Option String
  recentRuns : TableBody RunRowView
  latestRunSection : Option LatestRunSection
deriving DecidableEq, Repr

/-- `UserOverviewPage` rendering: the Recent Runs table always renders (with
its `No runs found.` placeholder for an empty list); the
`latest_run ? <section>...</section> : null` conditional yields the Latest
Run Details section only when `latest_run` is present. -/
def userOverviewPage (d : UserOverviewResponse) : UserOverviewView :=
  { headerEmail := d.userEmail
    recentRuns := renderTableBody 4 "No runs found." runRowView d.runs
    latestRunSection :=
      match d.latest_run with
      | none => none
      | some r =>
        some
          { runId := r.id
            runStatus := r.status
            events :=
              renderTableBody 3 "No events." eventRowView d.latest_run_events
            decisions :=
              renderTableBody 4 "No decisions." decisionRowView
                d.latest_run_decisions
            attempts :=
              renderTableBody 5 "No attempts." attemptRowView
                d.latest_run_email_attempts
            features :=
              renderTableBody 3 "No features." featureRowView
                d.latest_run_features } }

/-! ## `DashboardPage` (metrics dashboard) -/

/-- One entry of `distributions.decisions_by_rule`; the count `c` arrives as
an arbitrary JSON-ish value. -/
structure RuleCount where
  rule : String
  c : JsVal
deriving DecidableEq, Repr

/-- One entry of `distributions.attempts_by_template_status`. -/
structure TplStatusCount where
  template_key : String
  status : String
  c : JsVal
deriving DecidableEq, Repr

/-- The metrics distributions; either list may be missing (the page guards
with `|| []`). -/
structure Distributions where
  decisions_by_rule : Option (List RuleCount)
  attempts_by_template_status : Option (List TplStatusCount)
deriving DecidableEq, Repr

/-- The filters echoed by the backend and shown in the page footer. -/
structure MetricsFilters where
  days : JsNum
  tenantName : Option String
deriving DecidableEq, Repr

/-- The metrics payload fields the dashboard's shaping logic touches (KPI
and series fields pass through to presentational components untouched). -/
structure MetricsResponse where
  distributions : Distributions
  filters : MetricsFilters
deriving DecidableEq, Repr

/-- A tenant list entry. -/
structure TenantItem where
  tenantName : String
  count : ℤ
deriving DecidableEq, Repr

/-- `fetchTenants()` response. -/
structure TenantsResponse where
  tenants : Option (List TenantItem)
  total_users : ℤ
deriving DecidableEq, Repr

/-- A shaped bar-chart datum with a `name` and a numeric `value`. -/
structure ChartDatum where
  name : String
  value : JsNum
deriving DecidableEq, Repr

/-- The count shaping applied to every distribution entry:
`Number(d.c || 0)`. -/
def shapeCount (c : JsVal) : JsNum :=
  jsToNumber (jsOr c (.numv (.num 0)))

/-- `decisionsByRule`: `(metrics.distributions.decisions_by_rule || []).map`
with `name: d.rule, value: Number(d.c || 0)`. -/
def shapeDecisionsByRule (dist : Option (List RuleCount)) : List ChartDatum :=
  (dist.getD []).map (fun d => { name := d.rule, value := shapeCount d.c })

/-- `attemptsByTplStatus`: name is the template literal joining
`a.template_key` and `a.status` with a colon, value `Number(a.c || 0)`. -/
def shapeAttemptsByTplStatus (dist : Option (List TplStatusCount)) :
    List ChartDatum :=
  (dist.getD []).map
    (fun a =>
      { name := a.template_key ++ ":" ++ a.status, value := shapeCount a.c })

/-- The arguments `DashboardPage` passes to `fetchMetrics`. -/
structure FetchMetricsArgs where
  days : JsNum
  tenantName : Option String
deriving DecidableEq, Repr

/-- The call `fetchMetrics` receives: `days` as resolved, and
`tenantName: tenantName || undefined`, built from the raw query
parameters. -/
def dashboardMetricsArgs (spDays spTenant : Option String) :
    FetchMetricsArgs :=
  { days := resolvedDays spDays, tenantName := resolvedTenantName spTenant }

/-- The result of an awaited fetch: resolved with a value or rejected with
an error. -/
inductive Fetched (α : Type) where
  | ok (a : α) : Fetched α
  | err (msg : String) : Fetched α
deriving DecidableEq, Repr

/-- `Promise.all([p1, p2])`: resolves with both values only when both
resolve; rejects (with a rejection reason) when either rejects. -/
def promiseAll2 {α β : Type} : Fetched α → Fetched β → Fetched (α × β)
  | .err m, _ => .err m
  | .ok _, .err m => .err m
  | .ok a, .ok b => .ok (a, b)

/-- The dashboard view model built after the join: tenant options for the
filter form, the two shaped distributions, and the footer filters. -/
structure DashboardView where
  tenantOptions : List TenantItem
  decisionsByRule : List ChartDatum
  attemptsByTplStatus : List ChartDatum
  footerFilters : MetricsFilters
deriving DecidableEq, Repr

/-- The view-model construction `DashboardPage` performs once both fetches
have resolved. -/
def buildDashboardView (tenantsResp : TenantsResponse)
    (metrics : MetricsResponse) : DashboardView :=
  { tenantOptions := tenantsResp.tenants.getD []
    decisionsByRule :=
      shapeDecisionsByRule metrics.distributions.decisions_by_rule
    attemptsByTplStatus :=
      shapeAttemptsByTplStatus metrics.distributions.attempts_by_template_status
    footerFilters := metrics.filters }

/-- `DashboardPage`: `await Promise.all([fetchTenants(), fetchMetrics(...)])`
followed by view-model construction. The whole render fails when the join
rejects. -/
def dashboardPage (tenants : Fetched TenantsResponse)
    (metrics : Fetched MetricsResponse) : Fetched DashboardView :=
  match promiseAll2 tenants metrics with
  | .err m => .err m
  | .ok (t, m) => .ok (buildDashboardView t m)

end Analytics

namespace Analytics

example : resolvedLimit none = .num 50 := by decide
example : resolvedLimit (some "") = .num 50 := by decide
example : resolvedLimit (some "-5") = .num (-5) := by decide
example : resolvedLimit (some "abc") = .nan := by decide
example : resolvedOffset (some "3") = .num 3 := by decide
example : resolvedDays none = .num 7 := by decide
example : resolvedDays (some "") = .num 0 := by decide
example : resolvedDays (some "5") = .num 5 := by decide
example : resolvedTenantName (some "acme") = some "acme" := by decide

/-- Hex digits survive the encode/decode pair. -/
theorem hexDigitVal_hexDigitChar :
    ∀ n < 16, hexDigitVal (hexDigitChar n) = some n := by
  decide

set_option maxRecDepth 4000 in
/-- An unreserved byte's character is not `%` and carries the byte as its
code point. -/
theorem unreserved_char_spec :
    ∀ b < 256, isUnreservedByte b = true →
      Char.ofNat b ≠ '%' ∧ (Char.ofNat b).toNat = b := by
  decide

/-- Unfolding the decoder at a non-escape character. -/
theorem decode_cons_ne_pct (c : Char) (l : List Char) (h : c ≠ '%') :
    decodeURIComponentChars (c :: l) =
      (decodeURIComponentChars l).map (fun bs => c.toNat :: bs) := by
  rw [decodeURIComponentChars.eq_def]
  simp only
  rw [if_neg h]

/-- Unfolding the decoder at a `%XX` escape. -/
theorem decode_cons_pct (h l : Char) (rest : List Char) :
    decodeURIComponentChars ('%' :: h :: l :: rest) =
      match hexDigitVal h, hexDigitVal l, decodeURIComponentChars rest with
      | some hv, some lv, some bs => some ((16 * hv + lv) :: bs)
      | _, _, _ => none := by
  rw [decodeURIComponentChars.eq_def]
  simp only [if_true]

/-- Decoding inverts encoding on any byte sequence (bytes below 256). -/
theorem decodeURIComponentChars_encodeURIComponentBytes (bs : List ℕ)
    (h : ∀ b ∈ bs, b < 256) :
    decodeURIComponentChars (encodeURIComponentBytes bs) = some bs := by
  induction bs with
  | nil => rfl
  | cons b rest ih =>
    have hb : b < 256 := h b (List.mem_cons_self b rest)
    have hrest := ih (fun x hx => h x (List.mem_cons_of_mem b hx))
    by_cases hu : isUnreservedByte b = true
    · obtain ⟨hnp, htn⟩ := unreserved_char_spec b hb hu
      simp only [encodeURIComponentBytes, if_pos hu, List.singleton_append]
      rw [decode_cons_ne_pct _ _ hnp, hrest, htn]
      rfl
    · have h1 : hexDigitVal (hexDigitChar (b / 16)) = some (b / 16) :=
        hexDigitVal_hexDigitChar (b / 16) (by omega)
      have h2 : hexDigitVal (hexDigitChar (b % 16)) = some (b % 16) :=
        hexDigitVal_hexDigitChar (b % 16) (by omega)
      simp only [encodeURIComponentBytes, if_neg hu, List.cons_append,
        List.nil_append]
      rw [decode_cons_pct, h1, h2, hrest]
      have hdm : 16 * (b / 16) + b % 16 = b := by omega
      simp only [hdm]

/-- Every byte emitted by the UTF-8 encoder of a valid scalar value fits in
a byte. -/
theorem utf8EncodeCharNat_lt (n : ℕ) (hn : n < 1114112) :
    ∀ b ∈ utf8EncodeCharNat n, b < 256 := by
  intro b hb
  unfold utf8EncodeCharNat at hb
  split at hb
  · simp at hb; omega
  · split at hb
    · simp at hb; rcases hb with hb | hb <;> omega
    · split at hb
      · simp at hb; rcases hb with hb | hb | hb <;> omega
      · simp at hb; rcases hb with hb | hb | hb | hb <;> omega

/-- A `Char`'s code point is a valid Unicode scalar value. -/
theorem char_toNat_lt (c : Char) : c.toNat < 1114112 := by
  rcases c.valid with h | h
  · exact Nat.lt_trans h (by decide)
  · exact h.2

/-- All bytes of a string's UTF-8 encoding fit in a byte. -/
theorem utf8Bytes_lt (s : String) : ∀ b ∈ utf8Bytes s, b < 256 := by
  intro b hb
  simp only [utf8Bytes, List.mem_flatMap] at hb
  obtain ⟨c, _, hbc⟩ := hb
  exact utf8EncodeCharNat_lt c.toNat (char_toNat_lt c) b hbc

/-! ## Claim theorems -/

/-- C1 (counterexample): the claim that negative or non-numeric raw
`limit`/`offset` values are never forwarded is false. On the query string
`limit=-5` the resolved limit is `-5` — negative, not the default 50, and
not clamped; on `offset=-3` the resolved offset is `-3`; and on
`limit=abc` the resolved limit is `NaN`. All are forwarded raw to
`fetchUsersByTenant`. -/
theorem C1_counterexample :
    resolvedLimit (some "-5") = .num (-5) ∧
    resolvedLimit (some "-5") ≠ .num 50 ∧
    (-5 : ℚ) < 0 ∧
    resolvedOffset (some "-3") = .num (-3) ∧
    resolvedOffset (some "-3") ≠ .num 0 ∧
    resolvedLimit (some "abc") = .nan ∧
    (tenantUsersFetchArgs none (some "-5") (some "-3")).limit = .num (-5) := by
  refine ⟨by decide, by decide, ?_, by decide, by decide, by decide, by decide⟩
  norm_num

/-- C1 (amended): `limit`/`offset` default to 50/0 only when the raw query
value is absent or the empty string; any other raw value is converted with
JavaScript `Number` and forwarded unchanged — negative numbers and `NaN`
included. No clamping occurs. -/
theorem C1_limit_offset_resolution (l o : Option String) :
    ((l = none ∨ l = some "") → resolvedLimit l = .num 50) ∧
    (∀ s, l = some s → s ≠ "" → resolvedLimit l = jsStringToNumber s) ∧
    ((o = none ∨ o = some "") → resolvedOffset o = .num 0) ∧
    (∀ s, o = some s → s ≠ "" → resolvedOffset o = jsStringToNumber s) ∧
    (∀ q, (tenantUsersFetchArgs q l o).limit = resolvedLimit l ∧
      (tenantUsersFetchArgs q l o).offset = resolvedOffset o) := by
  refine ⟨?_, ?_, ?_, ?_, fun q => ⟨rfl, rfl⟩⟩
  · rintro (rfl | rfl) <;> decide
  · rintro s rfl hs
    simp [resolvedLimit, qp, jsOr, jsTruthy, jsToNumber, hs]
  · rintro (rfl | rfl) <;> decide
  · rintro s rfl hs
    simp [resolvedOffset, qp, jsOr, jsTruthy, jsToNumber, hs]

/-- C1 (amended) witness: at `limit="-5"`, `offset` absent. -/
theorem C1_limit_offset_resolution_witness :
    resolvedLimit (some "-5") = jsStringToNumber "-5" ∧
    resolvedOffset none = .num 0 :=
  ⟨(C1_limit_offset_resolution (some "-5") none).2.1 "-5" rfl (by decide),
   (C1_limit_offset_resolution (some "-5") none).2.2.1 (Or.inl rfl)⟩

/-- C2 (counterexample): the claim that a missing or non-numeric count `c`
always yields exactly 0 (never `NaN`) is false: a truthy non-numeric
string such as `"abc"` passes the `d.c || 0` guard and `Number("abc")` is
`NaN`, which reaches the chart datum. -/
theorem C2_counterexample :
    shapeDecisionsByRule (some [{ rule := "r1", c := .str "abc" }]) =
      [{ name := "r1", value := .nan }] ∧
    JsNum.nan ≠ JsNum.num 0 := by
  decide

/-- C2 (amended): the shaped value is `0` exactly when `c` is falsy —
which covers missing (`undefined`), `null`, `false`, `0`, `NaN` and the
empty string — and is `Number(c)` when `c` is truthy, which is `NaN` for a
truthy non-numeric string. The value is always a `JsNum` (never
`undefined`), for both distribution shapes. -/
theorem C2_shaped_value (r tk st : String) (c : JsVal) :
    (jsTruthy c = false → shapeCount c = .num 0) ∧
    (jsTruthy c = true → shapeCount c = jsToNumber c) ∧
    shapeDecisionsByRule (some [{ rule := r, c := c }]) =
      [{ name := r, value := shapeCount c }] ∧
    shapeAttemptsByTplStatus
      (some [{ template_key := tk, status := st, c := c }]) =
      [{ name := tk ++ ":" ++ st, value := shapeCount c }] := by
  refine ⟨?_, ?_, rfl, rfl⟩
  · intro h
    simp [shapeCount, jsOr, h, jsToNumber]
  · intro h
    simp [shapeCount, jsOr, h]

/-- C2 (amended) witness: a missing count yields 0; a truthy non-numeric
string yields `NaN`. -/
theorem C2_shaped_value_witness :
    shapeCount .undef = .num 0 ∧ shapeCount (.str "abc") = jsToNumber (.str "abc") :=
  ⟨(C2_shaped_value "r" "t" "s" .undef).1 (by decide),
   (C2_shaped_value "r" "t" "s" (.str "abc")).2.1 (by decide)⟩

/-- C3 (counterexample): the claim that the resolved `days` always lies in
the allowed set 7/14/30 is false: the query string `days=5` resolves to 5
and is forwarded to `fetchMetrics` unvalidated. -/
theorem C3_counterexample :
    resolvedDays (some "5") = .num 5 ∧
    resolvedDays (some "5") ≠ .num 7 ∧
    resolvedDays (some "5") ≠ .num 14 ∧
    resolvedDays (some "5") ≠ .num 30 ∧
    (dashboardMetricsArgs (some "5") none).days = .num 5 := by
  decide

/-- C3 (amended): `days` defaults to 7 only when the query parameter is
absent; any present raw value — the empty string included — is converted
with JavaScript `Number` and forwarded to `fetchMetrics` unchanged, even
when outside the set 7/14/30 the page's select offers. -/
theorem C3_days_resolution (d t : Option String) :
    (d = none → resolvedDays d = .num 7) ∧
    (∀ s, d = some s → resolvedDays d = jsStringToNumber s) ∧
    (dashboardMetricsArgs d t).days = resolvedDays d := by
  refine ⟨?_, ?_, rfl⟩
  · rintro rfl; decide
  · rintro s rfl
    simp [resolvedDays, qp, jsNullish, jsToNumber]

/-- C3 (amended) witness: `days=5` is forwarded as 5; absent defaults
to 7. -/
theorem C3_days_resolution_witness :
    resolvedDays (some "5") = jsStringToNumber "5" ∧
    resolvedDays none = .num 7 :=
  ⟨(C3_days_resolution (some "5") none).2.1 "5" rfl,
   (C3_days_resolution none none).1 rfl⟩

/-- C4: `truncate` leaves a string of at most 200 characters unchanged and
maps a longer string to exactly its first 200 characters followed by a
single ellipsis character. -/
theorem C4_truncate_spec (s : String) :
    (s.length ≤ 200 → truncate s = s) ∧
    (200 < s.length → truncate s = s.take 200 ++ "…") := by
  constructor
  · intro h
    simp [truncate, h]
  · intro h
    simp [truncate, show ¬s.length ≤ 200 by omega]

set_option maxRecDepth 8000 in
/-- C4 witness: a 201-character string is truncated to its first 200
characters plus the ellipsis. -/
theorem C4_truncate_spec_witness :
    truncate (String.mk (List.replicate 201 'a')) =
      (String.mk (List.replicate 201 'a')).take 200 ++ "…" :=
  (C4_truncate_spec (String.mk (List.replicate 201 'a'))).2 (by decide)

/-- C5: the `tenantName` argument passed to `fetchMetrics` is omitted
(`none`) when the query parameter is absent or the empty string, and is the
raw string unchanged when non-empty. -/
theorem C5_tenant_filter (d t : Option String) :
    ((t = none ∨ t = some "") →
      (dashboardMetricsArgs d t).tenantName = none) ∧
    (∀ s, t = some s → s ≠ "" →
      (dashboardMetricsArgs d t).tenantName = some s) := by
  constructor
  · rintro (rfl | rfl) <;> simp [dashboardMetricsArgs, resolvedTenantName]
  · rintro s rfl hs
    simp [dashboardMetricsArgs, resolvedTenantName, hs]

/-- C5 witness: absent tenant is omitted; `tenantName=acme` passes
through. -/
theorem C5_tenant_filter_witness :
    (dashboardMetricsArgs (some "7") none).tenantName = none ∧
    (dashboardMetricsArgs (some "7") (some "acme")).tenantName = some "acme" :=
  ⟨(C5_tenant_filter (some "7") none).1 (Or.inl rfl),
   (C5_tenant_filter (some "7") (some "acme")).2 "acme" rfl (by decide)⟩

/-- C6: if either the tenants fetch or the metrics fetch rejects, the
dashboard render is an error — the joined `Promise.all` rejects and no view
model (`DashboardView`) is produced from the half that succeeded. -/
theorem C6_all_or_nothing (tenants : Fetched TenantsResponse)
    (metrics : Fetched MetricsResponse)
    (h : (∃ m, tenants = .err m) ∨ (∃ m, metrics = .err m)) :
    (∃ m, dashboardPage tenants metrics = .err m) ∧
    ∀ v, dashboardPage tenants metrics ≠ .ok v := by
  rcases h with ⟨m, rfl⟩ | ⟨m, rfl⟩
  · cases metrics <;> simp [dashboardPage, promiseAll2]
  · cases tenants <;> simp [dashboardPage, promiseAll2]

/-- C6 witness: with the tenants fetch rejected and a successful metrics
fetch, the page render is an error and never a view model. -/
theorem C6_all_or_nothing_witness :
    (∃ m, dashboardPage (Fetched.err "backend unreachable")
      (Fetched.ok ⟨⟨none, none⟩, ⟨.num 7, none⟩⟩) = .err m) ∧
    ∀ v, dashboardPage (Fetched.err "backend unreachable")
      (Fetched.ok ⟨⟨none, none⟩, ⟨.num 7, none⟩⟩) ≠ .ok v :=
  C6_all_or_nothing _ _ (Or.inl ⟨"backend unreachable", rfl⟩)

/-- C7: with no `latest_run`, the rendered overview has no Latest Run
Details section at all — no events/decisions/attempts/features sub-table,
not even empty ones — while the Recent Runs table still renders: the
`No runs found.` placeholder when `runs` is empty, one row per run
otherwise. -/
theorem C7_no_latest_run (d : UserOverviewResponse)
    (h : d.latest_run = none) :
    (userOverviewPage d).latestRunSection = none ∧
    (d.runs.getD [] = [] →
      (userOverviewPage d).recentRuns = .placeholder 4 "No runs found.") ∧
    (∀ l, d.runs = some l → l ≠ [] →
      (userOverviewPage d).recentRuns = .rows (l.map runRowView)) := by
  refine ⟨?_, ?_, ?_⟩
  · simp [userOverviewPage, h]
  · intro he
    simp [userOverviewPage, renderTableBody, he]
  · intro l hl hne
    simp [userOverviewPage, renderTableBody, hl, List.length_eq_zero, hne]

/-- C7 witness: a response with no runs and no latest run renders the
placeholder Recent Runs table and no Latest Run Details section. -/
theorem C7_no_latest_run_witness :
    (userOverviewPage
      ⟨none, some [], none, none, none, none, none⟩).latestRunSection =
        none ∧
    (userOverviewPage
      ⟨none, some [], none, none, none, none, none⟩).recentRuns =
        .placeholder 4 "No runs found." :=
  ⟨(C7_no_latest_run ⟨none, some [], none, none, none, none, none⟩ rfl).1,
   (C7_no_latest_run ⟨none, some [], none, none, none, none, none⟩
      rfl).2.1 rfl⟩

/-- C8: an empty `items` array renders exactly the single
`No users found.` placeholder row spanning the four columns, and the footer
still shows the response's `count` (and `total`) values. -/
theorem C8_empty_users (tenantName : String) (data : UsersResponse)
    (h : data.items = some []) :
    (tenantUsersPage tenantName data).body =
      .placeholder 4 "No users found." ∧
    (tenantUsersPage tenantName data).footerCount = data.count ∧
    (tenantUsersPage tenantName data).footerTotal = data.total := by
  refine ⟨?_, rfl, rfl⟩
  simp [tenantUsersPage, tenantUsersBody, renderTableBody, h]

/-- C8 witness: an empty response with `count = 0` shows the placeholder
row and `count = 0` in the footer. -/
theorem C8_empty_users_witness :
    (tenantUsersPage "acme" ⟨some [], 0, 0⟩).body =
      .placeholder 4 "No users found." ∧
    (tenantUsersPage "acme" ⟨some [], 0, 0⟩).footerCount = 0 :=
  ⟨(C8_empty_users "acme" ⟨some [], 0, 0⟩ rfl).1,
   (C8_empty_users "acme" ⟨some [], 0, 0⟩ rfl).2.1⟩

/-- C9: the tenants page percent-encodes the tenant name into the link
path, and decoding the encoded path segment (as the tenant-users page does
with `decodeURIComponent`) recovers exactly the original name's UTF-8
bytes: decode after encode is the identity. -/
theorem C9_percent_roundtrip (name : String) :
    tenantHref name = "/tenants/" ++
      String.mk (encodeURIComponentBytes (utf8Bytes name)) ++ "/users" ∧
    tenantUsersPageParamBytes
      (String.mk (encodeURIComponentBytes (utf8Bytes name))) =
      some (utf8Bytes name) := by
  refine ⟨rfl, ?_⟩
  show decodeURIComponentChars
    (String.mk (encodeURIComponentBytes (utf8Bytes name))).toList =
    some (utf8Bytes name)
  have hlist : (String.mk (encodeURIComponentBytes (utf8Bytes name))).toList =
      encodeURIComponentBytes (utf8Bytes name) := rfl
  rw [hlist]
  exact decodeURIComponentChars_encodeURIComponentBytes _ (utf8Bytes_lt name)

/-- C10: the Name cell is `u.name` when present and non-empty, and
otherwise the space-joined first/last names (missing parts becoming the
empty string) trimmed; with all three fields absent it is the empty
string, never the text `undefined`. -/
theorem C10_name_cell (name first last : Option String) :
    (∀ n, name = some n → n ≠ "" → nameCell name first last = n) ∧
    ((name = none ∨ name = some "") →
      nameCell name first last =
        jsTrim ((first.getD "") ++ " " ++ (last.getD ""))) ∧
    nameCell none none none = "" ∧
    (∀ u : UserItem, (userRowView u).nameText =
      nameCell u.name u.first_name u.last_name) := by
  refine ⟨?_, ?_, by decide, fun u => rfl⟩
  · rintro n rfl hn
    simp [nameCell, hn]
  · rintro (rfl | rfl) <;> simp [nameCell]

/-- C10 witness: a present non-empty `name` wins; absent `name` with only a
first name renders the trimmed first name. -/
theorem C10_name_cell_witness :
    nameCell (some "Ada Lovelace") (some "A") (some "B") = "Ada Lovelace" ∧
    nameCell none (some "Ada") none = jsTrim ("Ada" ++ " " ++ "") :=
  ⟨(C10_name_cell (some "Ada Lovelace") (some "A") (some "B")).1
      "Ada Lovelace" rfl (by decide),
   (C10_name_cell none (some "Ada") none).2.1 (Or.inl rfl)⟩

end Analytics
